import Mathlib

/-!
Verification of the `halide-build` crate (src/lib.rs and src/bin/halide.rs).

The crate is glue code around external processes: a `Build` value constructs a
C++ compiler invocation and an execution of the produced binary, and a `Source`
value constructs `git clone`, `git pull` and `make` invocations.  We embed the
argument-list construction as pure functions over a `Cmd` record that mirrors
`std::process::Command` (program, accumulated argument vector, working
directory, extra environment entries).  The outcome of spawning and waiting on
a child process is supplied by an oracle `exitOf : Cmd → Except IoErr Bool`:
`Except.error e` models an I/O error from `status()`, `Except.ok s` models a
child that exited with success flag `s`.  The process environment is a map
`String → Option String` and the file-existence check used by `Build::run` is
a predicate `String → Bool`.
-/

/-- An I/O error returned by spawning/waiting on a child process.  The payload
is irrelevant to the crate (it is only propagated), so a bare code suffices. -/
structure IoErr where
  code : Nat
deriving DecidableEq, Repr

/-- Mirror of `std::process::Command` as visible to this crate: the program
name, the argument vector accumulated by `arg`/`args` calls, the working
directory set by `current_dir`, and environment entries set by `env`. -/
structure Cmd where
  program : String
  argv : List String
  cwd : Option String
  envs : List (String × String)
deriving DecidableEq, Repr

/-- `Command::new(p)`: no arguments, inherited working directory and env. -/
def Cmd.new (p : String) : Cmd :=
  { program := p, argv := [], cwd := none, envs := [] }

/-- `Command::arg`: append a single argument. -/
def Cmd.arg (c : Cmd) (a : String) : Cmd :=
  { c with argv := c.argv ++ [a] }

/-- `Command::args`: append a list of arguments. -/
def Cmd.args (c : Cmd) (as : List String) : Cmd :=
  { c with argv := c.argv ++ as }

/-- `Command::current_dir`: set the working directory. -/
def Cmd.current_dir (c : Cmd) (d : String) : Cmd :=
  { c with cwd := some d }

/-- `Command::env`: add an environment entry for the child. -/
def Cmd.env (c : Cmd) (k v : String) : Cmd :=
  { c with envs := c.envs ++ [(k, v)] }

/-- Whether a path is absolute (begins with `/`). -/
def isAbsPath (q : String) : Bool :=
  q.toList.head? == some '/'

/-- Whether a path already ends with the separator `/`. -/
def endsWithSep (p : String) : Bool :=
  p.toList.getLast? == some '/'

/-- Unix model of `PathBuf::join` (i.e. `push`): an absolute right operand
replaces the path, otherwise the components are joined with `/`, without
doubling a separator already present. -/
def pathJoin (p q : String) : String :=
  if isAbsPath q then q
  else if p = "" then q
  else if endsWithSep p then p ++ q
  else p ++ "/" ++ q

/-- The observable effect of one library operation: the child processes spawned
(in order), the files removed, and the returned `io::Result<bool>`. -/
structure Effect where
  spawned : List Cmd
  removed : List String
  result : Except IoErr Bool
deriving Repr

/-- Mirror of `struct Build<'a>` from src/lib.rs.  `PathBuf` and `&str` fields
are both modelled as `String` (`to_string_lossy` is the identity here). -/
structure Build where
  /-- Path to halide source -/
  halide_path : String
  /-- Input files -/
  src : List String
  /-- Output file -/
  output : String
  /-- C++ compiler -/
  cxx : Option String
  /-- C++ compile time flags -/
  cxxflags : Option String
  /-- C++ link time flags -/
  ldflags : Option String
  /-- Extra arguments to build step -/
  build_args : List String
  /-- Extra arguments to run step -/
  run_args : List String
  /-- Keep executable when finished running -/
  keep : Bool
  /-- Include Halide generator header -/
  generator : Bool
deriving DecidableEq, Repr

/-- `Build::new(halide_path, output)` from src/lib.rs lines 99–115. -/
def Build.new (halide_path output : String) : Build :=
  { halide_path := halide_path
    src := []
    output := output
    cxx := none
    cxxflags := none
    ldflags := none
    build_args := []
    run_args := []
    keep := false
    generator := false }

/-- `Build::source_file`: push one source file. -/
def Build.source_file (b : Build) (s : String) : Build :=
  { b with src := b.src ++ [s] }

/-- `Build::build_arg`: push one extra build argument.  (The Rust method name
collides with the Lean field accessor, hence the `push_` prefixes below.) -/
def Build.push_build_arg (b : Build) (s : String) : Build :=
  { b with build_args := b.build_args ++ [s] }

/-- `Build::build_args`: extend the extra build arguments. -/
def Build.push_build_args (b : Build) (s : List String) : Build :=
  { b with build_args := b.build_args ++ s }

/-- `Build::run_arg`: push one extra run argument. -/
def Build.push_run_arg (b : Build) (s : String) : Build :=
  { b with run_args := b.run_args ++ [s] }

/-- `Build::run_args`: extend the extra run arguments. -/
def Build.push_run_args (b : Build) (s : List String) : Build :=
  { b with run_args := b.run_args ++ s }

/-- `Build::ldflags`: overwrite the link flags. -/
def Build.set_ldflags (b : Build) (flags : String) : Build :=
  { b with ldflags := some flags }

/-- `Build::cxxflags`: overwrite the compile flags. -/
def Build.set_cxxflags (b : Build) (flags : String) : Build :=
  { b with cxxflags := some flags }

/-- `Build::compiler`: overwrite the compiler name. -/
def Build.compiler (b : Build) (name : String) : Build :=
  { b with cxx := some name }

/-- `Build::keep`: overwrite the keep flag. -/
def Build.set_keep (b : Build) (x : Bool) : Build :=
  { b with keep := x }

/-- `Build::generator`: overwrite the generator flag. -/
def Build.set_generator (b : Build) (x : Bool) : Build :=
  { b with generator := x }

/-- The compiler command constructed by `Build::build` (src/lib.rs lines
168–213), translated call by call.  `envv` is the process environment
(`env::var` returns `envv k`, its `unwrap_or` default is `getD`);
`flags.split(" ")` is `String.splitOn " "`. -/
def Build.buildCmd (b : Build) (envv : String → Option String) : Cmd :=
  let cxx_default := (envv "CXX").getD "c++"
  let cmd := Cmd.new (b.cxx.getD cxx_default)
  let cmd := cmd.arg "-std=c++11"
  let cmd := (cmd.args ["-I", pathJoin b.halide_path "include"]).args
    ["-I", pathJoin b.halide_path "tools"]
  let cmd := match b.cxxflags with
    | some flags => cmd.args (flags.splitOn " ")
    | none => cmd
  let cmd := if b.generator then
      cmd.arg (pathJoin (pathJoin b.halide_path "tools") "GenGen.cpp")
    else cmd
  let cmd := cmd.args b.build_args
  let tinfo := (envv "TERMINFO").getD "-lncurses"
  let cmd := ((cmd.args b.src).args ["-o", b.output]).args
    ["-L", pathJoin b.halide_path "lib", "-lHalide", "-lpng", "-ljpeg",
      "-lpthread", tinfo, "-ldl", "-lz"]
  let cmd := match b.ldflags with
    | some flags => cmd.args (flags.splitOn " ")
    | none => cmd
  cmd

/-- `Build::build`: spawn the compiler command once and propagate
`status().map(|s| s.success())`. -/
def Build.build (b : Build) (envv : String → Option String)
    (exitOf : Cmd → Except IoErr Bool) : Effect :=
  { spawned := [b.buildCmd envv], removed := [], result := exitOf (b.buildCmd envv) }

/-- The command constructed by `Build::run` (src/lib.rs lines 222–224): run the
output file with `run_args` and `LD_LIBRARY_PATH` pointing at `lib`. -/
def Build.runCmd (b : Build) : Cmd :=
  ((Cmd.new b.output).args b.run_args).env "LD_LIBRARY_PATH"
    (pathJoin b.halide_path "lib")

/-- `Build::run` (src/lib.rs lines 217–233): return `Ok(false)` without
spawning when the output does not exist; otherwise spawn the output once,
remove it afterwards unless `keep`, and return the child's status. -/
def Build.run (b : Build) (fs : String → Bool)
    (exitOf : Cmd → Except IoErr Bool) : Effect :=
  if fs b.output then
    { spawned := [b.runCmd]
      removed := if b.keep then [] else [b.output]
      result := exitOf b.runCmd }
  else
    { spawned := [], removed := [], result := Except.ok false }

/-- The command constructed by `compile_shared_library` (src/lib.rs 45–61). -/
def compile_shared_library_cmd (envv : String → Option String)
    (compiler : Option String) (output : String) (args : List String) : Cmd :=
  let cxx := (envv "CXX").getD "c++"
  (((((Cmd.new (compiler.getD cxx)).arg "-std=c++11").arg "-shared").arg
    "-o").arg output).args args

/-- `compile_shared_library`: spawn the compiler once and propagate status. -/
def compile_shared_library (envv : String → Option String)
    (exitOf : Cmd → Except IoErr Bool) (compiler : Option String)
    (output : String) (args : List String) : Effect :=
  let c := compile_shared_library_cmd envv compiler output args
  { spawned := [c], removed := [], result := exitOf c }

/-- Mirror of `struct Source` from src/lib.rs. -/
structure Source where
  halide_path : String
  repo : String
  branch : String
  make : String
  make_flags : List String
deriving DecidableEq, Repr

/-- The command of `Source::download`: `git clone -b <branch> <repo> <path>`. -/
def Source.downloadCmd (s : Source) : Cmd :=
  ((((Cmd.new "git").arg "clone").args ["-b", s.branch]).arg s.repo).arg
    s.halide_path

/-- `Source::download` (src/lib.rs 247–255). -/
def Source.download (s : Source) (exitOf : Cmd → Except IoErr Bool) : Effect :=
  { spawned := [s.downloadCmd], removed := [], result := exitOf s.downloadCmd }

/-- The command of `Source::update`: `git pull origin <branch>` in `<path>`. -/
def Source.updateCmd (s : Source) : Cmd :=
  ((((Cmd.new "git").current_dir s.halide_path).arg "pull").arg "origin").arg
    s.branch

/-- `Source::update` (src/lib.rs 258–266). -/
def Source.update (s : Source) (exitOf : Cmd → Except IoErr Bool) : Effect :=
  { spawned := [s.updateCmd], removed := [], result := exitOf s.updateCmd }

/-- The command of `Source::build`: `<make> <make_flags>` in `<path>`. -/
def Source.buildCmd (s : Source) : Cmd :=
  ((Cmd.new s.make).current_dir s.halide_path).args s.make_flags

/-- `Source::build` (src/lib.rs 269–275). -/
def Source.build (s : Source) (exitOf : Cmd → Except IoErr Bool) : Effect :=
  { spawned := [s.buildCmd], removed := [], result := exitOf s.buildCmd }

/-! ### The `run` subcommand flow of src/bin/halide.rs (lines 302–355) -/

/-- Index of the last `.` in a list of characters, if any. -/
def lastDotIdx (cs : List Char) : Option Nat :=
  ((cs.enum.filter (fun p => p.2 == '.')).map (fun p => p.1)).getLast?

/-- `Path::file_stem` restricted to a bare file name: drop the part after the
last dot, except that a dot in first position (as in `.gitignore`) does not
begin an extension. -/
def fileStem (name : String) : String :=
  match lastDotIdx name.toList with
  | none => name
  | some 0 => name
  | some (k + 1) => String.mk (name.toList.take (k + 1))

/-- `Path::file_name` as a string: the component after the last `/`. -/
def fileNameOf (p : String) : String :=
  ((p.splitOn "/").getLast?).getD ""

/-- The parent of a path: everything before the last `/`. -/
def parentOf (p : String) : String :=
  String.intercalate "/" (p.splitOn "/").dropLast

/-- `Path::with_file_name`: pop the last component, push the new name. -/
def withFileName (p name : String) : String :=
  pathJoin (parentOf p) name

/-- `Path::with_extension`: replace (or append) the extension of the last
component. -/
def withExtension (p e : String) : String :=
  withFileName p (fileStem (fileNameOf p) ++ "." ++ e)

/-- The shared-library file name computed in the `build` and `run` subcommands
of src/bin/halide.rs: prefix the file name of `x` with `lib` and set the
extension to `so`. -/
def sharedLibName (x : String) : String :=
  withExtension (withFileName x ("lib" ++ fileNameOf x)) "so"

/-- The externally visible steps of the `run` subcommand. -/
inductive Step where
  | buildStep
  | runStep
  | sharedStep
deriving DecidableEq, Repr

/-- How the `run` subcommand terminates: normally (exit code 0), via
`exit(1)` after a step reported failure, or via a panic from `.expect` on an
I/O error. -/
inductive Outcome where
  | finished
  | exited1
  | panicked
deriving DecidableEq, Repr

/-- The `run` subcommand flow of src/bin/halide.rs (lines 302–355), after the
`Build` value `b` has been constructed from the CLI arguments: run
`b.build()`, aborting on failure; then `b.run()`, aborting on failure; then,
when `--shared x` was given, `compile_shared_library(b.cxx, sharedLibName x,
&[x])`, whose boolean result the code discards (`.expect` only unwraps the
I/O layer).  Returns the list of steps reached and the termination outcome. -/
def runFlow (b : Build) (shared : Option String) (envv : String → Option String)
    (fs : String → Bool) (exitOf : Cmd → Except IoErr Bool) :
    List Step × Outcome :=
  match (b.build envv exitOf).result with
  | Except.error _ => ([Step.buildStep], Outcome.panicked)
  | Except.ok false => ([Step.buildStep], Outcome.exited1)
  | Except.ok true =>
    match (b.run fs exitOf).result with
    | Except.error _ => ([Step.buildStep, Step.runStep], Outcome.panicked)
    | Except.ok false => ([Step.buildStep, Step.runStep], Outcome.exited1)
    | Except.ok true =>
      match shared with
      | none => ([Step.buildStep, Step.runStep], Outcome.finished)
      | some x =>
        match (compile_shared_library envv exitOf b.cxx (sharedLibName x)
            [x]).result with
        | Except.error _ =>
          ([Step.buildStep, Step.runStep, Step.sharedStep], Outcome.panicked)
        | Except.ok _ =>
          ([Step.buildStep, Step.runStep, Step.sharedStep], Outcome.finished)

/-- The space-separated tokens of an optional flag string: the `split(" ")`
pieces when present, nothing when absent. -/
def optTokens : Option String → List String
  | some flags => flags.splitOn " "
  | none => []

/-- C1: `Build::build` invokes the C++ compiler named by `cxx` (defaulting to
the `CXX` environment variable, then `"c++"`) with exactly the argument list:
`-std=c++11`; `-I <halide_path>/include`; `-I <halide_path>/tools`; the
space-separated tokens of `cxxflags` when present; `<halide_path>/tools/GenGen.cpp`
when `generator`; `build_args`; the `src` files; `-o <output>`;
`-L <halide_path>/lib`, `-lHalide`, `-lpng`, `-ljpeg`, `-lpthread`, the value
of `TERMINFO` (or `-lncurses` when unset), `-ldl`, `-lz`; and the
space-separated tokens of `ldflags` when present. -/
theorem build_cmdline_exact (b : Build) (envv : String → Option String)
    (exitOf : Cmd → Except IoErr Bool) :
    (b.build envv exitOf).spawned =
      [{ program := b.cxx.getD ((envv "CXX").getD "c++")
         argv := "-std=c++11" :: "-I" :: pathJoin b.halide_path "include" ::
           "-I" :: pathJoin b.halide_path "tools" ::
           (optTokens b.cxxflags ++
            (if b.generator then
                [pathJoin (pathJoin b.halide_path "tools") "GenGen.cpp"]
              else []) ++
            b.build_args ++ b.src ++
            "-o" :: b.output ::
            "-L" :: pathJoin b.halide_path "lib" :: "-lHalide" :: "-lpng" ::
            "-ljpeg" :: "-lpthread" :: (envv "TERMINFO").getD "-lncurses" ::
            "-ldl" :: "-lz" :: optTokens b.ldflags)
         cwd := none
         envs := [] }] := by
  cases hc : b.cxxflags <;> cases hg : b.generator <;> cases hl : b.ldflags <;>
    simp [Build.build, Build.buildCmd, Cmd.new, Cmd.arg, Cmd.args, optTokens,
      hc, hg, hl]

/-- C2: `Source` wraps exactly three shell commands: `download` spawns
`git clone -b <branch> <repo> <halide_path>`, `update` spawns
`git pull origin <branch>` with working directory `<halide_path>`, and `build`
spawns `<make>` with arguments `<make_flags>` and working directory
`<halide_path>` — each method spawning exactly its one command. -/
theorem source_three_commands (s : Source) (exitOf : Cmd → Except IoErr Bool) :
    (s.download exitOf).spawned =
      [{ program := "git"
         argv := ["clone", "-b", s.branch, s.repo, s.halide_path]
         cwd := none, envs := [] }] ∧
    (s.update exitOf).spawned =
      [{ program := "git"
         argv := ["pull", "origin", s.branch]
         cwd := some s.halide_path, envs := [] }] ∧
    (s.build exitOf).spawned =
      [{ program := s.make
         argv := s.make_flags
         cwd := some s.halide_path, envs := [] }] := by
  refine ⟨?_, ?_, ?_⟩ <;>
    simp [Source.download, Source.update, Source.build, Source.downloadCmd,
      Source.updateCmd, Source.buildCmd, Cmd.new, Cmd.arg, Cmd.args,
      Cmd.current_dir]

/-- C3: each of `Source::download`, `Source::update`, `Source::build`,
`Build::build` and `compile_shared_library` spawns its command exactly once
and returns exactly the oracle's verdict on that command — `Err e` precisely
when spawning/waiting failed with I/O error `e`, and otherwise `Ok` of the
child's success flag, so `Ok(true)` iff the exit status is success.  No retry
or recovery: the spawn list has length one. -/
theorem ops_spawn_once_propagate_status (b : Build) (s : Source)
    (envv : String → Option String) (exitOf : Cmd → Except IoErr Bool)
    (compiler : Option String) (output : String) (args : List String) :
    ((s.download exitOf).spawned.length = 1 ∧
      (s.download exitOf).result = exitOf s.downloadCmd) ∧
    ((s.update exitOf).spawned.length = 1 ∧
      (s.update exitOf).result = exitOf s.updateCmd) ∧
    ((s.build exitOf).spawned.length = 1 ∧
      (s.build exitOf).result = exitOf s.buildCmd) ∧
    ((b.build envv exitOf).spawned.length = 1 ∧
      (b.build envv exitOf).result = exitOf (b.buildCmd envv)) ∧
    ((compile_shared_library envv exitOf compiler output args).spawned.length
        = 1 ∧
      (compile_shared_library envv exitOf compiler output args).result =
        exitOf (compile_shared_library_cmd envv compiler output args)) :=
  ⟨⟨rfl, rfl⟩, ⟨rfl, rfl⟩, ⟨rfl, rfl⟩, ⟨rfl, rfl⟩, ⟨rfl, rfl⟩⟩

/-- C6: `compile_shared_library(compiler, output, args)` invokes the given
compiler (else the `CXX` environment variable, else `"c++"`) with arguments
exactly `-std=c++11 -shared -o <output>` followed by `args` in order, and
returns the process's success status. -/
theorem compile_shared_library_cmdline (envv : String → Option String)
    (exitOf : Cmd → Except IoErr Bool) (compiler : Option String)
    (output : String) (args : List String) :
    (compile_shared_library envv exitOf compiler output args).spawned =
      [{ program := compiler.getD ((envv "CXX").getD "c++")
         argv := "-std=c++11" :: "-shared" :: "-o" :: output :: args
         cwd := none, envs := [] }] ∧
    (compile_shared_library envv exitOf compiler output args).result =
      exitOf (compile_shared_library_cmd envv compiler output args) := by
  constructor <;>
    simp [compile_shared_library, compile_shared_library_cmd, Cmd.new,
      Cmd.arg, Cmd.args]

/-- C9: `Build::new(p, o)` sets `halide_path` and `output` to `p` and `o`,
leaves `src`, `build_args` and `run_args` empty, `cxx`, `cxxflags` and
`ldflags` unset, and both `keep` and `generator` false (hence, by
`run_removes_output_unless_keep` and `build_cmdline_exact`, the default run
deletes the produced executable and the default build does not include
GenGen.cpp). -/
theorem build_new_defaults (p o : String) :
    Build.new p o =
      { halide_path := p, src := [], output := o, cxx := none,
        cxxflags := none, ldflags := none, build_args := [], run_args := [],
        keep := false, generator := false } := rfl

/-- C10: each builder method of `Build` changes only its named field —
appending for the list-valued ones, overwriting for the scalar ones — and
leaves every other field unchanged (stated as a full record equality per
method; the Rust names `build_args`, `run_args`, `ldflags`, `cxxflags`,
`keep`, `generator` collide with Lean field accessors and appear here with
`push_`/`set_` prefixes). -/
theorem builder_methods_frame (b : Build) (s : String) (l : List String)
    (x : Bool) :
    b.source_file s = { b with src := b.src ++ [s] } ∧
    b.push_build_arg s = { b with build_args := b.build_args ++ [s] } ∧
    b.push_build_args l = { b with build_args := b.build_args ++ l } ∧
    b.push_run_arg s = { b with run_args := b.run_args ++ [s] } ∧
    b.push_run_args l = { b with run_args := b.run_args ++ l } ∧
    b.set_ldflags s = { b with ldflags := some s } ∧
    b.set_cxxflags s = { b with cxxflags := some s } ∧
    b.compiler s = { b with cxx := some s } ∧
    b.set_keep x = { b with keep := x } ∧
    b.set_generator x = { b with generator := x } :=
  ⟨rfl, rfl, rfl, rfl, rfl, rfl, rfl, rfl, rfl, rfl⟩

/-- C4: when the output file exists, `Build::run` executes it as a single
child process with `run_args` as arguments and `LD_LIBRARY_PATH` set to
`<halide_path>/lib`, and returns the child's exit status as a success boolean
(the blocking `status()` call is the oracle). -/
theorem run_executes_output (b : Build) (fs : String → Bool)
    (exitOf : Cmd → Except IoErr Bool) (h : fs b.output = true) :
    (b.run fs exitOf).spawned =
      [{ program := b.output
         argv := b.run_args
         cwd := none
         envs := [("LD_LIBRARY_PATH", pathJoin b.halide_path "lib")] }] ∧
    (b.run fs exitOf).result = exitOf b.runCmd := by
  constructor <;> simp [Build.run, Build.runCmd, Cmd.new, Cmd.args, Cmd.env, h]

/-- Concrete `Build` for evaluating the run-step theorems. -/
def sampleBuild : Build := Build.new "halide" "out"

/-- A file system in which exactly the file `out` exists. -/
def fsWithOut : String → Bool := fun p => p == "out"

/-- A file system in which no file exists. -/
def fsEmpty : String → Bool := fun _ => false

/-- An oracle under which every child process succeeds. -/
def allOk : Cmd → Except IoErr Bool := fun _ => Except.ok true

theorem run_executes_output_witness :
    fsWithOut sampleBuild.output = true ∧
    ((sampleBuild.run fsWithOut allOk).spawned =
      [{ program := sampleBuild.output
         argv := sampleBuild.run_args
         cwd := none
         envs := [("LD_LIBRARY_PATH",
           pathJoin sampleBuild.halide_path "lib")] }] ∧
    (sampleBuild.run fsWithOut allOk).result = allOk sampleBuild.runCmd) :=
  ⟨rfl, run_executes_output sampleBuild fsWithOut allOk rfl⟩

/-- C5: when the output file exists, `Build::run` removes the output after
running it — whatever the child's result, success, failure or I/O error —
exactly when `keep` is false, and removes no other file.  (`run` takes the
`Build` by shared reference, so no field changes; the removal list is the
whole file effect.) -/
theorem run_removes_output_unless_keep (b : Build) (fs : String → Bool)
    (exitOf : Cmd → Except IoErr Bool) (h : fs b.output = true) :
    (b.run fs exitOf).removed = (if b.keep then [] else [b.output]) ∧
    ∀ f, f ∈ (b.run fs exitOf).removed → f = b.output := by
  constructor
  · simp [Build.run, h]
  · intro f hf
    simp only [Build.run, h, if_true] at hf
    cases hk : b.keep <;> simp [hk] at hf
    exact hf

theorem run_removes_output_unless_keep_witness :
    fsWithOut sampleBuild.output = true ∧
    ((sampleBuild.run fsWithOut allOk).removed =
      (if sampleBuild.keep then [] else [sampleBuild.output]) ∧
    ∀ f, f ∈ (sampleBuild.run fsWithOut allOk).removed →
      f = sampleBuild.output) :=
  ⟨rfl, run_removes_output_unless_keep sampleBuild fsWithOut allOk rfl⟩

/-- C8: when the output path does not exist, `Build::run` returns `Ok(false)`
without spawning any child process and without removing any file, even when
`keep` is false. -/
theorem run_missing_output (b : Build) (fs : String → Bool)
    (exitOf : Cmd → Except IoErr Bool) (h : fs b.output = false) :
    (b.run fs exitOf).result = Except.ok false ∧
    (b.run fs exitOf).spawned = [] ∧
    (b.run fs exitOf).removed = [] := by
  refine ⟨?_, ?_, ?_⟩ <;> simp [Build.run, h]

theorem run_missing_output_witness :
    fsEmpty sampleBuild.output = false ∧
    ((sampleBuild.run fsEmpty allOk).result = Except.ok false ∧
    (sampleBuild.run fsEmpty allOk).spawned = [] ∧
    (sampleBuild.run fsEmpty allOk).removed = []) :=
  ⟨rfl, run_missing_output sampleBuild fsEmpty allOk rfl⟩

/-- An environment with no variables set. -/
def cexEnv : String → Option String := fun _ => none

/-- An oracle under which exactly the commands carrying a `-shared` argument
(i.e. `compile_shared_library` invocations) exit unsuccessfully; every other
child succeeds. -/
def cexExit : Cmd → Except IoErr Bool :=
  fun c => Except.ok (! c.argv.contains "-shared")

/-- C7 (counterexample): in the `run` subcommand flow, a shared-library
compilation whose child exits unsuccessfully is a step failure that does NOT
abort the program — the flow still terminates normally (exit code 0) — so the
claim that the first failure always aborts with exit code 1 is false at this
input. -/
theorem run_flow_shared_failure_not_aborting :
    (compile_shared_library cexEnv cexExit sampleBuild.cxx
        (sharedLibName "kernel.cpp") ["kernel.cpp"]).result =
      Except.ok false ∧
    runFlow sampleBuild (some "kernel.cpp") cexEnv fsWithOut cexExit =
      ([Step.buildStep, Step.runStep, Step.sharedStep], Outcome.finished) :=
  ⟨rfl, rfl⟩

/-- C7 (amended): in the `run` subcommand flow the steps happen sequentially;
the compiled executable is executed only after the build step has returned
success, the optional shared-library compilation happens only after the run
step has returned success, and the first failure of the build or run step
aborts the program — with a logged message and exit code 1 when the child
exited unsuccessfully, and with a panic when the step failed with an I/O
error.  A failed build is never followed by a run.  (Unlike the original
claim, the shared-library step's unsuccessful exit status is discarded and
does not abort, as `run_flow_shared_failure_not_aborting` shows.) -/
theorem run_flow_sequencing (b : Build) (shared : Option String)
    (envv : String → Option String) (fs : String → Bool)
    (exitOf : Cmd → Except IoErr Bool) :
    (Step.runStep ∈ (runFlow b shared envv fs exitOf).1 →
      (b.build envv exitOf).result = Except.ok true) ∧
    (Step.sharedStep ∈ (runFlow b shared envv fs exitOf).1 →
      (b.run fs exitOf).result = Except.ok true) ∧
    ((b.build envv exitOf).result = Except.ok false →
      runFlow b shared envv fs exitOf = ([Step.buildStep], Outcome.exited1)) ∧
    (∀ e, (b.build envv exitOf).result = Except.error e →
      runFlow b shared envv fs exitOf = ([Step.buildStep], Outcome.panicked)) ∧
    ((b.build envv exitOf).result = Except.ok true →
      (b.run fs exitOf).result = Except.ok false →
      runFlow b shared envv fs exitOf =
        ([Step.buildStep, Step.runStep], Outcome.exited1)) ∧
    (∀ e, (b.build envv exitOf).result = Except.ok true →
      (b.run fs exitOf).result = Except.error e →
      runFlow b shared envv fs exitOf =
        ([Step.buildStep, Step.runStep], Outcome.panicked)) := by
  rcases hb : (b.build envv exitOf).result with e | bs
  · simp [runFlow, hb]
  · cases bs
    · simp [runFlow, hb]
    · rcases hr : (b.run fs exitOf).result with e2 | rs
      · simp [runFlow, hb, hr]
      · cases rs
        · simp [runFlow, hb, hr]
        · cases shared with
          | none => simp [runFlow, hb, hr]
          | some x =>
            rcases hs : (compile_shared_library envv exitOf b.cxx
                (sharedLibName x) [x]).result with e3 | ss
            · simp [runFlow, hb, hr, hs]
            · simp [runFlow, hb, hr, hs]

theorem run_flow_sequencing_witness :
    (Step.runStep ∈
        (runFlow sampleBuild (some "kernel.cpp") cexEnv fsWithOut cexExit).1 →
      (sampleBuild.build cexEnv cexExit).result = Except.ok true) ∧
    (Step.sharedStep ∈
        (runFlow sampleBuild (some "kernel.cpp") cexEnv fsWithOut cexExit).1 →
      (sampleBuild.run fsWithOut cexExit).result = Except.ok true) ∧
    ((sampleBuild.build cexEnv cexExit).result = Except.ok false →
      runFlow sampleBuild (some "kernel.cpp") cexEnv fsWithOut cexExit =
        ([Step.buildStep], Outcome.exited1)) ∧
    (∀ e, (sampleBuild.build cexEnv cexExit).result = Except.error e →
      runFlow sampleBuild (some "kernel.cpp") cexEnv fsWithOut cexExit =
        ([Step.buildStep], Outcome.panicked)) ∧
    ((sampleBuild.build cexEnv cexExit).result = Except.ok true →
      (sampleBuild.run fsWithOut cexExit).result = Except.ok false →
      runFlow sampleBuild (some "kernel.cpp") cexEnv fsWithOut cexExit =
        ([Step.buildStep, Step.runStep], Outcome.exited1)) ∧
    (∀ e, (sampleBuild.build cexEnv cexExit).result = Except.ok true →
      (sampleBuild.run fsWithOut cexExit).result = Except.error e →
      runFlow sampleBuild (some "kernel.cpp") cexEnv fsWithOut cexExit =
        ([Step.buildStep, Step.runStep], Outcome.panicked)) :=
  run_flow_sequencing sampleBuild (some "kernel.cpp") cexEnv fsWithOut cexExit
